import Mathlib

/-!
Shallow embedding of the LegalLink core services:
`app/services/rag_service.py` (retrieval with relevance filtering) and
`app/services/llm_service.py` (completion orchestration with fallback).

Machine floats of the source are modelled as rationals; the FAISS vector
store and the HTTP transport are modelled as abstract collaborators whose
contracts (at most `k` neighbors, nonnegative L2 distances) are carried as
fields of the structure.
-/

set_option maxHeartbeats 1000000
set_option maxRecDepth 8000

namespace LegalLink

/-- A chunk held by a vector store: its page content and the optional
`source` entry of its metadata (`doc.page_content`, `doc.metadata.get("source")`). -/
structure Doc where
  page_content : String
  source : Option String
deriving DecidableEq, Repr

/-- The FAISS-backed vector store collaborator.  `nn query k` models
`similarity_search_with_score(query, k=k)`: a ranked list (closest first)
of `(document, L2-distance)` pairs.  The collaborator contract: at most
`k` neighbors are returned and L2 distances are nonnegative. -/
structure VectorStore where
  nn : String → Nat → List (Doc × ℚ)
  nn_len : ∀ q k, (nn q k).length ≤ k
  nn_nonneg : ∀ q k, ∀ p ∈ nn q k, 0 ≤ p.2

/-- The state of `RAGService`: the optional global store (`self.vector_store`)
and the per-document stores as loaded by `_get_document_vector_store`
(`none` models a missing or unloadable per-document index). -/
structure RAGState where
  vector_store : Option VectorStore
  docStores : String → Option VectorStore

/-- `similarity = 1 / (1 + distance)` (rag_service.py line 218). -/
def similarity (distance : ℚ) : ℚ := 1 / (1 + distance)

/-- The accumulation loop of `RAGService.search` (lines 216-221): keep
`doc.page_content` whenever `similarity >= relevance_threshold`. -/
def collectRelevant (relevance_threshold : ℚ) : List (Doc × ℚ) → List String
  | [] => []
  | p :: rest =>
    if relevance_threshold ≤ similarity p.2 then
      p.1.page_content :: collectRelevant relevance_threshold rest
    else
      collectRelevant relevance_threshold rest

/-- `RAGService.search` (lines 188-227).  A truthy `document_id` first tries
the per-document store and falls back to the global store when it is absent;
a missing store yields `[]`.  Python truthiness: the empty-string id is falsy
and never triggers a per-document lookup. -/
def search (st : RAGState) (query : String) (k : Nat) (relevance_threshold : ℚ)
    (document_id : Option String) : List String :=
  let store_to_use : Option VectorStore :=
    match document_id with
    | none => st.vector_store
    | some id =>
      if id = "" then st.vector_store
      else
        match st.docStores id with
        | some s => some s
        | none => st.vector_store
  match store_to_use with
  | none => []
  | some s => collectRelevant relevance_threshold (s.nn query k)

/-- Round half to even, the tie-breaking rule of python's builtin `round`. -/
def roundHalfEven (q : ℚ) : ℤ :=
  if q - ⌊q⌋ < 1 / 2 then ⌊q⌋
  else if 1 / 2 < q - ⌊q⌋ then ⌊q⌋ + 1
  else if ⌊q⌋ % 2 = 0 then ⌊q⌋ else ⌊q⌋ + 1

/-- Python `round(x, 4)` (rag_service.py line 243). -/
def round4 (q : ℚ) : ℚ := (roundHalfEven (q * 10000) : ℚ) / 10000

/-- One entry of the `search_with_scores` result. -/
structure ScoredChunk where
  content : String
  similarity_score : ℚ
  source : String
deriving DecidableEq, Repr

/-- `RAGService.search_with_scores` (lines 229-249): every neighbor of the
global store becomes `{content, similarity_score := round(1/(1+distance), 4),
source := metadata.get("source", "unknown")}`. -/
def search_with_scores (st : RAGState) (query : String) (k : Nat) : List ScoredChunk :=
  match st.vector_store with
  | none => []
  | some s =>
    (s.nn query k).map fun p =>
      ⟨p.1.page_content, round4 (similarity p.2), p.1.source.getD "unknown"⟩

/-- The completion providers `LLMService.__init__` accepts. -/
inductive Provider
  | openrouter
  | openai
  | gemini
deriving DecidableEq, Repr, BEq

/-- A (provider, model) pair of the fallback chain. -/
structure Candidate where
  provider : Provider
  model : String
deriving DecidableEq, Repr, BEq

/-- A `{role, content}` message dict. -/
structure ChatMsg where
  role : String
  content : String
deriving DecidableEq, Repr, BEq

/-- Parsed shape of a completion response body, as discriminated by
lines 117-133 of llm_service.py: a nonempty `choices` array, an `error`
field (with no nonempty `choices`), valid JSON with neither, or
undecodable JSON. -/
inductive Body
  | choices (content : String)
  | errorField (err : String)
  | emptyJson
  | invalidJson
deriving DecidableEq, Repr, BEq

/-- An HTTP response: status code, parsed body shape, and raw `response.text`
(used only inside error strings). -/
structure HttpResponse where
  status : Nat
  body : Body
  text : String
deriving DecidableEq, Repr, BEq

/-- Outcome of one `requests.post` call: a response, or a raised
exception whose `str` is `msg` (both `RequestException` and the generic
`Exception` arm set `last_error = str(e)` and continue). -/
inductive AttemptOutcome
  | response (r : HttpResponse)
  | exception (msg : String)
deriving DecidableEq, Repr, BEq

/-- One outbound request issued by `generate_response`: an HTTP chat
completion carrying the message list, or a gemini SDK call carrying the
combined prompt string. -/
inductive Request
  | http (cand : Candidate) (messages : List ChatMsg)
  | geminiCall (model : String) (prompt : String)
deriving DecidableEq, Repr, BEq

/-- The configuration surface `generate_response` reads: the fields
resolved by `__init__` (`provider`, `api_key`, `model`) plus the global
settings consulted later (`ENABLE_MODEL_FALLBACK`,
`OPENROUTER_FALLBACK_MODELS`, `OPENAI_API_KEY`, `OPENAI_MODEL`). -/
structure LLMSettings where
  provider : Provider
  api_key : String
  model : String
  enable_model_fallback : Bool
  openrouter_fallback_models : List String
  openai_api_key : String
  openai_model : String
deriving DecidableEq, Repr, BEq

/-- The static part of `_build_system_prompt` (llm_service.py lines 194-203). -/
def basePrompt : String :=
  "You are LegalLink AI Assistant, a helpful and knowledgeable legal assistant. \nYou provide accurate, helpful information about legal topics while being conversational and easy to understand.\n\nImportant guidelines:\n- Be helpful, accurate, and professional\n- If you're unsure about something, say so clearly\n- Always recommend consulting with a qualified legal professional for specific legal advice\n- Use the provided context to answer questions when available\n- If the context doesn't contain relevant information, use your general knowledge but mention this\n"

/-- `LLMService._build_system_prompt` (lines 192-217).  `context and
any(context)` is truthy exactly when some context string is nonempty. -/
def build_system_prompt (context : List String) : String :=
  if context.any fun c => c ≠ "" then
    basePrompt ++ "\n\n---\nRELEVANT CONTEXT FROM KNOWLEDGE BASE:\n"
      ++ String.intercalate "\n\n" context
      ++ "\n---\n\nUse the above context to help answer the user's question. If the context is relevant, base your answer on it.\n"
  else basePrompt

/-- Python `chat_history[-10:]`: the last ten elements. -/
def lastTen (chat_history : List ChatMsg) : List ChatMsg :=
  chat_history.drop (chat_history.length - 10)

/-- The messages array built at lines 52-61: system prompt, the last ten
history messages, then the current user message. -/
def buildMessages (system_prompt : String) (chat_history : List ChatMsg)
    (user_message : String) : List ChatMsg :=
  ⟨"system", system_prompt⟩ ::
    ((lastTen chat_history).map fun m => ⟨m.role, m.content⟩) ++ [⟨"user", user_message⟩]

/-- The combined prompt of the gemini branch (lines 68-74). -/
def geminiPrompt (system_prompt : String) (chat_history : List ChatMsg)
    (user_message : String) : String :=
  ((lastTen chat_history).foldl
      (fun acc m =>
        acc ++ (if m.role = "user" then "User" else "Assistant") ++ ": " ++ m.content ++ "\n\n")
      ("System: " ++ system_prompt ++ "\n\n"))
    ++ "User: " ++ user_message

/-- `models_to_try` (lines 94-97): the primary model, extended by the
configured fallback models when the provider is openrouter and fallback
is enabled. -/
def modelsToTry (s : LLMSettings) : List String :=
  if s.provider = .openrouter ∧ s.enable_model_fallback then
    [s.model] ++ s.openrouter_fallback_models
  else [s.model]

/-- What one iteration of the attempt loop decides. -/
inductive StepResult
  | success (content : String)
  | tryNext (last_error : String)
  | fatal (last_error : String)
deriving DecidableEq, Repr, BEq

/-- The body of the attempt loop (lines 107-165), as a classification of the
outcome of `requests.post` for one candidate.  Status 200 parses the body
(success on nonempty `choices`; an `error` field, undecodable JSON, and a
body with neither all continue — the last through the line-153 arm with the
`Error 200:` message); 429/402/404/400/5xx continue with an `HTTP n:` message
truncated to 200 characters; 401 breaks the loop; any other status continues
with an `Error n:` message; a raised exception continues with `str(e)`. -/
def loopBody (o : AttemptOutcome) : StepResult :=
  match o with
  | .response r =>
    if r.status = 200 then
      match r.body with
      | .choices content => .success content
      | .errorField e => .tryNext ("API Error: " ++ e)
      | .invalidJson => .tryNext "Invalid JSON response"
      | .emptyJson => .tryNext ("Error " ++ toString r.status ++ ": " ++ r.text)
    else if r.status = 429 ∨ r.status = 402 ∨ r.status = 404 ∨ 500 ≤ r.status ∨ r.status = 400 then
      .tryNext ("HTTP " ++ toString r.status ++ ": " ++ r.text.take 200)
    else if r.status = 401 then
      .fatal "Invalid API Key"
    else
      .tryNext ("Error " ++ toString r.status ++ ": " ++ r.text)
  | .exception msg => .tryNext msg

/-- The attempt loop (lines 101-165) over `models_to_try`.  Returns the
requests issued, the successful completion text if any, and the final
`last_error`.  The environment `env` gives the outcome of the (at most one)
request issued for a candidate. -/
def tryModels (env : Candidate → AttemptOutcome) (provider : Provider)
    (messages : List ChatMsg) :
    List String → Option String → List Request × Option String × Option String
  | [], last_error => ([], none, last_error)
  | m :: rest, last_error =>
    let req : Request := .http ⟨provider, m⟩ messages
    match loopBody (env ⟨provider, m⟩) with
    | .success content => ([req], some content, last_error)
    | .tryNext e =>
      let out := tryModels env provider messages rest (some e)
      (req :: out.1, out.2.1, out.2.2)
    | .fatal e => ([req], none, some e)

/-- The last-resort OpenAI attempt (lines 173-188): `raise_for_status`
raises for 4xx/5xx (caught and logged), then a nonempty `choices` array is
returned; every other outcome (exception, undecodable JSON, no choices)
falls through to the exhaustion message without touching `last_error`. -/
def lastResort (o : AttemptOutcome) : Option String :=
  match o with
  | .exception _ => none
  | .response r =>
    if 400 ≤ r.status ∧ r.status < 600 then none
    else
      match r.body with
      | .choices content => some content
      | _ => none

/-- The synthesized exhaustion message (lines 83 and 190); Python prints
`None` for an unset `last_error`. -/
def exhaustMsg (last_error : Option String) : String :=
  "I couldn't generate a response. The service is currently busy or experiencing issues. (Last error: "
    ++ last_error.getD "None" ++ ")"

/-- `LLMService.generate_response` (lines 35-190).  `env` models the HTTP
transport (deterministic per candidate: the loop issues at most one request
per chain position and sends the same payload shape each time), `genv` the
gemini SDK call.  Returns the ordered trace of outbound requests together
with the returned string; the Python function returns a string on every
path — no exception escapes — which this total function mirrors. -/
def generate_response (s : LLMSettings) (env : Candidate → AttemptOutcome)
    (genv : Except String String) (user_message : String) (context : List String)
    (chat_history : List ChatMsg) (system_prompt : Option String) :
    List Request × String :=
  if s.api_key = "" then
    ([], "Error: LLM API key not configured. Please set the appropriate key in your environment.")
  else
    let sp := system_prompt.getD (build_system_prompt context)
    let messages := buildMessages sp chat_history user_message
    if s.provider = .gemini then
      match genv with
      | .ok text => ([.geminiCall s.model (geminiPrompt sp chat_history user_message)], text)
      | .error e =>
        ([.geminiCall s.model (geminiPrompt sp chat_history user_message)], exhaustMsg (some e))
    else
      let out := tryModels env s.provider messages (modelsToTry s) none
      match out.2.1 with
      | some text => (out.1, text)
      | none =>
        if s.provider = .openrouter ∧ s.openai_api_key ≠ "" then
          let req : Request := .http ⟨.openai, s.openai_model⟩ messages
          match lastResort (env ⟨.openai, s.openai_model⟩) with
          | some content => (out.1 ++ [req], content)
          | none => (out.1 ++ [req], exhaustMsg out.2.2)
        else (out.1, exhaustMsg out.2.2)

/-- The candidate attempted by each outbound request of a trace. -/
def attempted (trace : List Request) : List Candidate :=
  trace.map fun r =>
    match r with
    | .http c _ => c
    | .geminiCall m _ => ⟨.gemini, m⟩

/-- The `last_error` value accumulated by a run of the attempt loop in
which every candidate continues (used to characterize exhaustion). -/
def chainErr (env : Candidate → AttemptOutcome) (provider : Provider) :
    Option String → List String → Option String
  | last_error, [] => last_error
  | last_error, m :: rest =>
    chainErr env provider
      (match loopBody (env ⟨provider, m⟩) with
       | .tryNext e => some e
       | _ => last_error) rest

/-- The shipped default `OPENROUTER_FALLBACK_MODELS` (app/core/config.py
lines 22-30); its first entry coincides with the default `OPENROUTER_MODEL`. -/
def OPENROUTER_FALLBACK_MODELS : List String :=
  ["google/gemini-2.0-flash-exp:free",
   "meta-llama/llama-3.2-3b-instruct:free",
   "microsoft/phi-3-mini-128k-instruct:free",
   "mistralai/mistral-7b-instruct:free",
   "openchat/openchat-7b:free",
   "gryphe/mythomax-l2-13b:free",
   "nousresearch/hermes-3-llama-3.1-405b:free"]

/-- The shipped default configuration (app/core/config.py) with an
openrouter API key supplied through the environment, as required for any
request to be issued. -/
def defaultSettings : LLMSettings :=
  ⟨.openrouter, "sk-or-key", "google/gemini-2.0-flash-exp:free", true,
   OPENROUTER_FALLBACK_MODELS, "", "gpt-3.5-turbo"⟩

/-- A two-chunk store used to exercise the retrieval theorems on concrete
inputs (distances 1 and 9, similarities 1/2 and 1/10). -/
def wStore : VectorStore :=
  ⟨fun _ k =>
      ([((⟨"Chunk A", some "docs/a.txt"⟩ : Doc), (1 : ℚ)),
        ((⟨"Chunk B", none⟩ : Doc), (9 : ℚ))]).take k,
   fun _ k => by simp [List.length_take],
   fun _ k p hp => by
     have h2 := List.take_subset k _ hp
     simp only [List.mem_cons, List.not_mem_nil, or_false] at h2
     rcases h2 with h2 | h2 <;> subst h2 <;> norm_num⟩

/-- A retrieval state whose per-document indices are all absent. -/
def wState : RAGState := ⟨some wStore, fun _ => none⟩

/-- A store holding one very distant chunk (L2 distance 20000, similarity
1/20001 < 0.00005, which `round(·, 4)` sends to 0). -/
def farStore : VectorStore :=
  ⟨fun _ k => ([((⟨"Far chunk", some "kb"⟩ : Doc), (20000 : ℚ))]).take k,
   fun _ k => by simp [List.length_take],
   fun _ k p hp => by
     have h2 := List.take_subset k _ hp
     simp only [List.mem_cons, List.not_mem_nil, or_false] at h2
     subst h2; norm_num⟩

/-- Retrieval state around `farStore`. -/
def farState : RAGState := ⟨some farStore, fun _ => none⟩

/-- A transport in which every request is rate-limited (HTTP 429). -/
def env429 : Candidate → AttemptOutcome :=
  fun _ => .response ⟨429, .invalidJson, "rate limited"⟩

/-- A transport in which every request is rejected as unauthorized (HTTP 401). -/
def env401 : Candidate → AttemptOutcome :=
  fun _ => .response ⟨401, .invalidJson, "unauthorized"⟩

/-- A transport where model `m1` is rate-limited and every other candidate
answers HTTP 200 with completion text `Answer!`. -/
def envM2succ : Candidate → AttemptOutcome :=
  fun c =>
    if c.model = "m1" then .response ⟨429, .invalidJson, "rate limited"⟩
    else .response ⟨200, .choices "Answer!", "ok"⟩

/-- openrouter settings with chain `[m1, m2, m3]` and no OpenAI key. -/
def sChain3 : LLMSettings :=
  ⟨.openrouter, "sk-or-key", "m1", true, ["m2", "m3"], "", "gpt-3.5-turbo"⟩

/-- openrouter settings with chain `[m1]` and an OpenAI key configured. -/
def sWithOpenAI : LLMSettings :=
  ⟨.openrouter, "sk-or-key", "m1", false, [], "sk-oa-key", "gpt-3.5-turbo"⟩

/-- openrouter settings with chain `[m1]` and no OpenAI key. -/
def sBare : LLMSettings :=
  ⟨.openrouter, "sk-or-key", "m1", false, [], "", "gpt-3.5-turbo"⟩

/-- Settings whose API key is empty. -/
def sNoKey : LLMSettings :=
  ⟨.openrouter, "", "m1", true, ["m2"], "", "gpt-3.5-turbo"⟩

theorem similarity_pos (d : ℚ) (h : 0 ≤ d) : 0 < similarity d := by
  unfold similarity
  exact div_pos one_pos (by linarith)

theorem similarity_le_one (d : ℚ) (h : 0 ≤ d) : similarity d ≤ 1 := by
  unfold similarity
  rw [div_le_one (by linarith)]
  linarith

theorem similarity_lt_of_lt (d d2 : ℚ) (h0 : 0 ≤ d) (h : d < d2) :
    similarity d2 < similarity d := by
  unfold similarity
  rw [div_lt_div_iff₀ (by linarith) (by linarith)]
  linarith

theorem roundHalfEven_nonneg (q : ℚ) (h : 0 ≤ q) : 0 ≤ roundHalfEven q := by
  unfold roundHalfEven
  have hf : (0 : ℤ) ≤ ⌊q⌋ := Int.floor_nonneg.mpr h
  split_ifs <;> omega

theorem roundHalfEven_le (q : ℚ) (n : ℤ) (h : q ≤ n) : roundHalfEven q ≤ n := by
  unfold roundHalfEven
  have hf : ⌊q⌋ ≤ n := by
    have h2 : ⌊q⌋ ≤ ⌊(n : ℚ)⌋ := Int.floor_le_floor h
    simpa using h2
  have hstrict : ¬ q - ⌊q⌋ < 1 / 2 → ⌊q⌋ < n := by
    intro h1
    have h2 : (1 : ℚ) / 2 ≤ q - ⌊q⌋ := not_lt.mp h1
    have h3 : (⌊q⌋ : ℚ) < (n : ℚ) := by linarith
    exact_mod_cast h3
  split_ifs with h1 h2 h3
  · exact hf
  · have := hstrict h1; omega
  · exact hf
  · have := hstrict h1; omega

theorem round4_nonneg (q : ℚ) (h : 0 ≤ q) : 0 ≤ round4 q := by
  unfold round4
  have h1 : (0 : ℤ) ≤ roundHalfEven (q * 10000) :=
    roundHalfEven_nonneg _ (by positivity)
  have h2 : (0 : ℚ) ≤ (roundHalfEven (q * 10000) : ℚ) := by exact_mod_cast h1
  positivity

theorem round4_le_one (q : ℚ) (h : q ≤ 1) : round4 q ≤ 1 := by
  unfold round4
  have h1 : roundHalfEven (q * 10000) ≤ (10000 : ℤ) :=
    roundHalfEven_le _ _ (by push_cast; linarith)
  rw [div_le_one (by norm_num)]
  exact_mod_cast h1

theorem collectRelevant_eq_filter (t : ℚ) (l : List (Doc × ℚ)) :
    collectRelevant t l
      = (l.filter fun p => decide (t ≤ similarity p.2)).map fun p => p.1.page_content := by
  induction l with
  | nil => rfl
  | cons p rest ih =>
    by_cases h : t ≤ similarity p.2
    · simp [collectRelevant, h, ih]
    · simp [collectRelevant, h, ih]

/-- C1: for every query, every `k`, and every relevance threshold,
`RAGService.search` returns exactly the retrieved neighbors whose similarity
`1/(1+distance)` is at least the threshold, as their page contents in the
neighbor rank order produced by the nearest-neighbor search (a filter of
the ranked neighbor list), and hence at most `k` items. -/
theorem search_at_most_k_and_exactly_threshold_filtered
    (st : RAGState) (s : VectorStore) (q : String) (k : Nat) (t : ℚ)
    (hs : st.vector_store = some s) :
    search st q k t none
        = ((s.nn q k).filter fun p => decide (t ≤ similarity p.2)).map
            (fun p => p.1.page_content)
      ∧ (search st q k t none).length ≤ k := by
  have hsearch : search st q k t none = collectRelevant t (s.nn q k) := by
    simp [search, hs]
  constructor
  · rw [hsearch, collectRelevant_eq_filter]
  · rw [hsearch, collectRelevant_eq_filter]
    calc (((s.nn q k).filter fun p => decide (t ≤ similarity p.2)).map
            (fun p => p.1.page_content)).length
        = ((s.nn q k).filter fun p => decide (t ≤ similarity p.2)).length := by
          rw [List.length_map]
      _ ≤ (s.nn q k).length := List.length_filter_le _ _
      _ ≤ k := s.nn_len q k

/-- C1 witness: on the concrete two-chunk store with threshold 2/5, the
theorem applies and yields the single chunk of similarity 1/2. -/
theorem search_at_most_k_witness :
    search wState "q" 6 (2 / 5) none
        = ((wStore.nn "q" 6).filter fun p => decide ((2 : ℚ) / 5 ≤ similarity p.2)).map
            (fun p => p.1.page_content)
      ∧ (search wState "q" 6 (2 / 5) none).length ≤ 6 :=
  search_at_most_k_and_exactly_threshold_filtered wState wStore "q" 6 (2 / 5) rfl

/-- C6: when the per-document index for `document_id` cannot be loaded,
`RAGService.search` performs the search against the global index and
returns exactly the global results (and in particular never errors). -/
theorem search_falls_back_to_global_when_doc_index_absent
    (st : RAGState) (q : String) (k : Nat) (t : ℚ) (id : String)
    (h : st.docStores id = none) :
    search st q k t (some id) = search st q k t none := by
  by_cases hid : id = "" <;> simp [search, hid, h]

/-- C6 witness: the fallback equation at a concrete state whose
per-document indices are all absent. -/
theorem search_falls_back_witness :
    search wState "q" 3 (1 / 2) (some "missing-doc") = search wState "q" 3 (1 / 2) none :=
  search_falls_back_to_global_when_doc_index_absent wState "q" 3 (1 / 2) "missing-doc" rfl

/-- C7: for every distance `d ≥ 0` the retrieval similarity `1/(1+d)` lies
in the half-open interval (0, 1] and is strictly decreasing in the
distance. -/
theorem similarity_in_unit_interval_and_strict_anti (d : ℚ) (h : 0 ≤ d) :
    (0 < similarity d ∧ similarity d ≤ 1)
      ∧ ∀ d2 : ℚ, d < d2 → similarity d2 < similarity d :=
  ⟨⟨similarity_pos d h, similarity_le_one d h⟩,
   fun d2 hlt => similarity_lt_of_lt d d2 h hlt⟩

/-- C7 witness: the interval bounds at distance 3 and strict decrease from
distance 3 to distance 7. -/
theorem similarity_in_unit_interval_witness :
    (0 < similarity 3 ∧ similarity 3 ≤ 1) ∧ similarity 7 < similarity 3 :=
  ⟨(similarity_in_unit_interval_and_strict_anti 3 (by norm_num)).1,
   (similarity_in_unit_interval_and_strict_anti 3 (by norm_num)).2 7 (by norm_num)⟩

/-- C8 counterexample: `search_with_scores` rounds the similarity to four
decimal places, so a neighbor at L2 distance 20000 (similarity 1/20001)
is reported with `similarity_score = 0`, which is outside (0, 1]: the
claim that every returned `similarity_score` lies in (0, 1] is false. -/
theorem search_with_scores_score_can_round_to_zero :
    ¬ ∀ e ∈ search_with_scores farState "query" 6,
        0 < e.similarity_score ∧ e.similarity_score ≤ 1 := by
  intro h
  have hmem : (⟨"Far chunk", round4 (similarity 20000), "kb"⟩ : ScoredChunk)
      ∈ search_with_scores farState "query" 6 := by
    simp [search_with_scores, farState, farStore]
  have hfl : ⌊(similarity 20000 * 10000 : ℚ)⌋ = 0 := by
    unfold similarity
    rw [Int.floor_eq_iff]
    push_cast
    norm_num
  have h0 : round4 (similarity 20000) = 0 := by
    unfold round4 roundHalfEven
    rw [hfl]
    rw [if_pos (by unfold similarity; push_cast; norm_num)]
    norm_num
  have := (h _ hmem).1
  rw [h0] at this
  exact lt_irrefl 0 this

/-- C8 amended: every entry returned by `search_with_scores` carries a
`similarity_score` in the closed interval [0, 1]; the raw similarity is in
(0, 1], but the rounding to four decimal places can produce exactly 0 when
the distance exceeds 19999. -/
theorem search_with_scores_scores_in_closed_unit_interval
    (st : RAGState) (s : VectorStore) (q : String) (k : Nat)
    (hs : st.vector_store = some s) :
    ∀ e ∈ search_with_scores st q k,
      0 ≤ e.similarity_score ∧ e.similarity_score ≤ 1 := by
  intro e he
  rw [search_with_scores, hs] at he
  simp only [List.mem_map] at he
  obtain ⟨p, hp, rfl⟩ := he
  have hd : 0 ≤ p.2 := s.nn_nonneg q k p hp
  exact ⟨round4_nonneg _ (le_of_lt (similarity_pos _ hd)),
         round4_le_one _ (similarity_le_one _ hd)⟩

/-- C8 amended witness: the bounds applied to the concrete far-away entry,
whose rounded score is exactly 0. -/
theorem search_with_scores_scores_witness :
    0 ≤ (⟨"Far chunk", round4 (similarity 20000), "kb"⟩ : ScoredChunk).similarity_score
      ∧ (⟨"Far chunk", round4 (similarity 20000), "kb"⟩ : ScoredChunk).similarity_score ≤ 1 :=
  search_with_scores_scores_in_closed_unit_interval farState farStore "query" 6 rfl
    ⟨"Far chunk", round4 (similarity 20000), "kb"⟩
    (by simp [search_with_scores, farState, farStore])

theorem loopBody_of_401 (r : HttpResponse) (h : r.status = 401) :
    loopBody (.response r) = .fatal "Invalid API Key" := by
  simp [loopBody, h]

theorem loopBody_of_200_choices (r : HttpResponse) (c : String)
    (hst : r.status = 200) (hb : r.body = .choices c) :
    loopBody (.response r) = .success c := by
  simp [loopBody, hst, hb]

theorem tryModels_trace_shape (env : Candidate → AttemptOutcome) (prov : Provider)
    (msgs : List ChatMsg) :
    ∀ (ms : List String) (le : Option String),
      ∃ n, (tryModels env prov msgs ms le).1
        = (ms.take n).map fun m => Request.http ⟨prov, m⟩ msgs := by
  intro ms
  induction ms with
  | nil => intro le; exact ⟨0, rfl⟩
  | cons m rest ih =>
    intro le
    cases hstep : loopBody (env ⟨prov, m⟩) with
    | success c => exact ⟨1, by simp [tryModels, hstep]⟩
    | tryNext e =>
      obtain ⟨n, hn⟩ := ih (some e)
      exact ⟨n + 1, by simp [tryModels, hstep, hn]⟩
    | fatal e => exact ⟨1, by simp [tryModels, hstep]⟩

theorem tryModels_append (env : Candidate → AttemptOutcome) (prov : Provider)
    (msgs : List ChatMsg) (pre : List String)
    (h : ∀ m ∈ pre, ∃ e, loopBody (env ⟨prov, m⟩) = .tryNext e) :
    ∀ (rest : List String) (le : Option String),
      tryModels env prov msgs (pre ++ rest) le
        = ((pre.map fun m => Request.http ⟨prov, m⟩ msgs)
            ++ (tryModels env prov msgs rest (chainErr env prov le pre)).1,
           (tryModels env prov msgs rest (chainErr env prov le pre)).2) := by
  induction pre with
  | nil => intro rest le; simp [chainErr]
  | cons m pre ih =>
    intro rest le
    obtain ⟨e, he⟩ := h m (by simp)
    have ih2 := ih (fun m' hm' => h m' (by simp [hm'])) rest (some e)
    simp [tryModels, he, chainErr, ih2]

theorem tryModels_exhaust (env : Candidate → AttemptOutcome) (prov : Provider)
    (msgs : List ChatMsg) (ms : List String) (le : Option String)
    (h : ∀ m ∈ ms, ∃ e, loopBody (env ⟨prov, m⟩) = .tryNext e) :
    tryModels env prov msgs ms le
      = (ms.map fun m => Request.http ⟨prov, m⟩ msgs,
         none, chainErr env prov le ms) := by
  have h2 := tryModels_append env prov msgs ms h [] le
  simpa [tryModels] using h2

theorem chainErr_isSome (env : Candidate → AttemptOutcome) (prov : Provider) :
    ∀ (ms : List String) (le : Option String),
      (∀ m ∈ ms, ∃ e, loopBody (env ⟨prov, m⟩) = .tryNext e) → ms ≠ [] →
      ∃ e, chainErr env prov le ms = some e := by
  intro ms
  induction ms with
  | nil => intro le _ hne; exact absurd rfl hne
  | cons m rest ih =>
    intro le hall _
    obtain ⟨e, he⟩ := hall m (by simp)
    by_cases hr : rest = []
    · subst hr
      exact ⟨e, by simp [chainErr, he]⟩
    · obtain ⟨e2, he2⟩ := ih (some e) (fun m' hm' => hall m' (by simp [hm'])) hr
      exact ⟨e2, by simpa [chainErr, he] using he2⟩

theorem tryModels_msgs (env : Candidate → AttemptOutcome) (prov : Provider)
    (msgs : List ChatMsg) :
    ∀ (ms : List String) (le : Option String) (c : Candidate) (m : List ChatMsg),
      Request.http c m ∈ (tryModels env prov msgs ms le).1 → m = msgs := by
  intro ms
  induction ms with
  | nil => intro le c m hmem; simp [tryModels] at hmem
  | cons x rest ih =>
    intro le c m hmem
    cases hstep : loopBody (env ⟨prov, x⟩) with
    | success cc =>
      simp [tryModels, hstep] at hmem
      exact hmem.2
    | tryNext e =>
      simp [tryModels, hstep] at hmem
      rcases hmem with h1 | h2
      · exact h1.2
      · exact ih (some e) c m h2
    | fatal e =>
      simp [tryModels, hstep] at hmem
      exact hmem.2

theorem attempted_append (t1 t2 : List Request) :
    attempted (t1 ++ t2) = attempted t1 ++ attempted t2 := by
  unfold attempted
  rw [List.map_append]

theorem attempted_map_http (prov : Provider) (msgs : List ChatMsg) (l : List String) :
    attempted (l.map fun m => Request.http ⟨prov, m⟩ msgs)
      = l.map fun m => (⟨prov, m⟩ : Candidate) := by
  unfold attempted
  rw [List.map_map]
  rfl

theorem http_map_nodup_tail (prov : Provider) (l : List String) (cand : Candidate)
    (hl : l.Nodup) (hc : cand.provider ≠ prov) :
    ((l.map fun m => (⟨prov, m⟩ : Candidate)) ++ [cand]).Nodup := by
  rw [List.nodup_append]
  refine ⟨?_, List.nodup_singleton _, ?_⟩
  · refine List.Nodup.map ?_ hl
    intro a b hab
    simpa using hab
  · intro a ha hb
    simp only [List.mem_singleton] at hb
    subst hb
    simp only [List.mem_map] at ha
    obtain ⟨w, _, hw⟩ := ha
    apply hc
    rw [← hw]

theorem chatMsg_map_eta (l : List ChatMsg) :
    (l.map fun m => (⟨m.role, m.content⟩ : ChatMsg)) = l := by
  induction l with
  | nil => rfl
  | cons a t ih => cases a; simp [ih]

theorem buildMessages_eq (spv : String) (hist : List ChatMsg) (u : String) :
    buildMessages spv hist u
      = ⟨"system", spv⟩ :: (hist.drop (hist.length - 10) ++ [⟨"user", u⟩]) := by
  unfold buildMessages lastTen
  rw [chatMsg_map_eta]
  simp

/-- C10: with an empty API key, `generate_response` returns the fixed
`API key not configured` error string and issues no request at all (the
trace is empty, so the fallback chain is never exercised). -/
theorem empty_api_key_returns_error_without_requests
    (s : LLMSettings) (env : Candidate → AttemptOutcome) (genv : Except String String)
    (u : String) (ctx : List String) (hist : List ChatMsg) (sp : Option String)
    (h : s.api_key = "") :
    generate_response s env genv u ctx hist sp
      = ([], "Error: LLM API key not configured. Please set the appropriate key in your environment.") := by
  simp [generate_response, h]

/-- C10 witness: the early return on the concrete key-less configuration. -/
theorem empty_api_key_witness :
    generate_response sNoKey env429 (Except.error "x") "Hi" [] [] none
      = ([], "Error: LLM API key not configured. Please set the appropriate key in your environment.") :=
  empty_api_key_returns_error_without_requests sNoKey env429 (Except.error "x") "Hi" [] [] none rfl

/-- C9: every HTTP completion request issued by `generate_response` carries
the message list consisting of the system prompt, then exactly the most
recent ten turns of the supplied chat history (the older prefix is dropped),
then the current user message. -/
theorem sent_messages_truncate_history_to_last_ten
    (s : LLMSettings) (env : Candidate → AttemptOutcome) (genv : Except String String)
    (u : String) (ctx : List String) (hist : List ChatMsg) (sp : Option String)
    (c : Candidate) (m : List ChatMsg)
    (hmem : Request.http c m ∈ (generate_response s env genv u ctx hist sp).1) :
    m = ⟨"system", sp.getD (build_system_prompt ctx)⟩ ::
          (hist.drop (hist.length - 10) ++ [⟨"user", u⟩])
      ∧ (hist.drop (hist.length - 10)).length ≤ 10
      ∧ hist.take (hist.length - 10) ++ hist.drop (hist.length - 10) = hist := by
  have hlen : (hist.drop (hist.length - 10)).length ≤ 10 := by
    rw [List.length_drop]; omega
  have htd : hist.take (hist.length - 10) ++ hist.drop (hist.length - 10) = hist :=
    List.take_append_drop _ _
  refine ⟨?_, hlen, htd⟩
  have hm : m = buildMessages (sp.getD (build_system_prompt ctx)) hist u := by
    by_cases hkey : s.api_key = ""
    · simp [generate_response, hkey] at hmem
    · by_cases hg : s.provider = .gemini
      · cases genv <;> simp [generate_response, if_neg hkey, hg] at hmem
      · set msgs := buildMessages (sp.getD (build_system_prompt ctx)) hist u with hmsgs
        simp only [generate_response, if_neg hkey, if_neg hg] at hmem
        rw [← hmsgs] at hmem
        cases hsc : (tryModels env s.provider msgs (modelsToTry s) none).2.1 with
        | some t =>
          simp only [hsc] at hmem
          exact tryModels_msgs env s.provider msgs (modelsToTry s) none c m hmem
        | none =>
          simp only [hsc] at hmem
          by_cases hor : s.provider = .openrouter ∧ s.openai_api_key ≠ ""
          · rw [if_pos hor] at hmem
            cases hlr : lastResort (env ⟨Provider.openai, s.openai_model⟩) with
            | some content =>
              simp only [hlr] at hmem
              rcases List.mem_append.mp hmem with h1 | h2
              · exact tryModels_msgs env s.provider msgs (modelsToTry s) none c m h1
              · simp at h2
                exact h2.2
            | none =>
              simp only [hlr] at hmem
              rcases List.mem_append.mp hmem with h1 | h2
              · exact tryModels_msgs env s.provider msgs (modelsToTry s) none c m h1
              · simp at h2
                exact h2.2
          · rw [if_neg hor] at hmem
            exact tryModels_msgs env s.provider msgs (modelsToTry s) none c m hmem
  rw [hm, buildMessages_eq]

/-- C9 witness: a concrete call with a one-turn history; the single issued
request carries system prompt, that turn, and the user message. -/
theorem sent_messages_witness :
    buildMessages "S" [(⟨"user", "hi"⟩ : ChatMsg)] "hello"
        = ⟨"system", (some "S" : Option String).getD (build_system_prompt [])⟩ ::
            ([(⟨"user", "hi"⟩ : ChatMsg)].drop ([(⟨"user", "hi"⟩ : ChatMsg)].length - 10)
              ++ [⟨"user", "hello"⟩])
      ∧ ([(⟨"user", "hi"⟩ : ChatMsg)].drop ([(⟨"user", "hi"⟩ : ChatMsg)].length - 10)).length ≤ 10
      ∧ [(⟨"user", "hi"⟩ : ChatMsg)].take ([(⟨"user", "hi"⟩ : ChatMsg)].length - 10)
          ++ [(⟨"user", "hi"⟩ : ChatMsg)].drop ([(⟨"user", "hi"⟩ : ChatMsg)].length - 10)
          = [(⟨"user", "hi"⟩ : ChatMsg)] :=
  sent_messages_truncate_history_to_last_ten sBare env429 (Except.error "x") "hello" []
    [⟨"user", "hi"⟩] (some "S") ⟨Provider.openrouter, "m1"⟩
    (buildMessages "S" [⟨"user", "hi"⟩] "hello")
    (by
      have h : (generate_response sBare env429 (Except.error "x") "hello" []
            [⟨"user", "hi"⟩] (some "S")).1
          = [Request.http ⟨Provider.openrouter, "m1"⟩
              (buildMessages "S" [⟨"user", "hi"⟩] "hello")] := rfl
      rw [h]
      exact List.mem_singleton.mpr rfl)

/-- C5: if every earlier candidate of the chain fails with a loop-continuing
(retryable) failure and a later candidate answers HTTP 200 with a well-formed
`choices` body, `generate_response` returns exactly that candidate's
completion text, and the attempted candidates are exactly the earlier ones
followed by the successful one — nothing after it in the chain is tried. -/
theorem first_success_returned_and_stops_chain
    (s : LLMSettings) (env : Candidate → AttemptOutcome) (genv : Except String String)
    (u : String) (ctx : List String) (hist : List ChatMsg) (sp : Option String)
    (pre : List String) (m : String) (rest : List String)
    (r : HttpResponse) (c : String)
    (hkey : s.api_key ≠ "") (hgem : s.provider ≠ .gemini)
    (hchain : modelsToTry s = pre ++ m :: rest)
    (hpre : ∀ m' ∈ pre, ∃ e, loopBody (env ⟨s.provider, m'⟩) = .tryNext e)
    (henv : env ⟨s.provider, m⟩ = .response r)
    (hst : r.status = 200) (hb : r.body = .choices c) :
    (generate_response s env genv u ctx hist sp).2 = c
      ∧ attempted (generate_response s env genv u ctx hist sp).1
          = (pre ++ [m]).map fun m' => (⟨s.provider, m'⟩ : Candidate) := by
  have hstep : loopBody (env ⟨s.provider, m⟩) = .success c := by
    rw [henv]
    exact loopBody_of_200_choices r c hst hb
  set msgs := buildMessages (sp.getD (build_system_prompt ctx)) hist u with hmsgs
  have hout : tryModels env s.provider msgs (modelsToTry s) none
      = ((pre.map fun m' => Request.http ⟨s.provider, m'⟩ msgs)
            ++ [Request.http ⟨s.provider, m⟩ msgs],
         some c, chainErr env s.provider none pre) := by
    rw [hchain, tryModels_append env s.provider msgs pre hpre (m :: rest) none]
    simp [tryModels, hstep]
  have key : generate_response s env genv u ctx hist sp
      = ((pre.map fun m' => Request.http ⟨s.provider, m'⟩ msgs)
            ++ [Request.http ⟨s.provider, m⟩ msgs], c) := by
    simp only [generate_response, if_neg hkey, if_neg hgem]
    rw [← hmsgs, hout]
  rw [key]
  refine ⟨rfl, ?_⟩
  rw [attempted_append, attempted_map_http]
  simp [attempted]

/-- C5 witness: chain `[m1, m2, m3]` where `m1` is rate-limited and `m2`
succeeds with text `Answer!`: the call returns `Answer!` and attempts
exactly `m1` then `m2`. -/
theorem first_success_witness :
    (generate_response sChain3 envM2succ (Except.error "x") "Hi" [] [] none).2 = "Answer!"
      ∧ attempted (generate_response sChain3 envM2succ (Except.error "x") "Hi" [] [] none).1
          = (["m1"] ++ ["m2"]).map fun m' => (⟨Provider.openrouter, m'⟩ : Candidate) :=
  first_success_returned_and_stops_chain sChain3 envM2succ (Except.error "x") "Hi" [] [] none
    ["m1"] "m2" ["m3"] ⟨200, .choices "Answer!", "ok"⟩ "Answer!"
    (by decide) (by decide) rfl
    (fun m' hm' => by
      simp only [List.mem_singleton] at hm'
      subst hm'
      exact ⟨"HTTP 429: rate limited", rfl⟩)
    rfl rfl rfl

/-- C3: when a candidate attempt receives HTTP 401, no further candidate of
that provider's chain is attempted (the loop breaks); afterwards exactly one
more attempt — against the secondary provider's primary model — is issued
when the primary provider is openrouter and an OpenAI key is configured, and
no attempt otherwise. -/
theorem fatal_401_short_circuits_chain
    (s : LLMSettings) (env : Candidate → AttemptOutcome) (genv : Except String String)
    (u : String) (ctx : List String) (hist : List ChatMsg) (sp : Option String)
    (pre : List String) (m : String) (rest : List String) (r : HttpResponse)
    (hkey : s.api_key ≠ "") (hgem : s.provider ≠ .gemini)
    (hchain : modelsToTry s = pre ++ m :: rest)
    (hpre : ∀ m' ∈ pre, ∃ e, loopBody (env ⟨s.provider, m'⟩) = .tryNext e)
    (henv : env ⟨s.provider, m⟩ = .response r) (hst : r.status = 401) :
    attempted (generate_response s env genv u ctx hist sp).1
      = (pre ++ [m]).map (fun m' => (⟨s.provider, m'⟩ : Candidate))
        ++ (if s.provider = .openrouter ∧ s.openai_api_key ≠ ""
            then [(⟨Provider.openai, s.openai_model⟩ : Candidate)] else []) := by
  have hstep : loopBody (env ⟨s.provider, m⟩) = .fatal "Invalid API Key" := by
    rw [henv]
    exact loopBody_of_401 r hst
  set msgs := buildMessages (sp.getD (build_system_prompt ctx)) hist u with hmsgs
  have hout : tryModels env s.provider msgs (modelsToTry s) none
      = ((pre.map fun m' => Request.http ⟨s.provider, m'⟩ msgs)
            ++ [Request.http ⟨s.provider, m⟩ msgs],
         none, some "Invalid API Key") := by
    rw [hchain, tryModels_append env s.provider msgs pre hpre (m :: rest) none]
    simp [tryModels, hstep]
  simp only [generate_response, if_neg hkey, if_neg hgem]
  rw [← hmsgs, hout]
  by_cases hor : s.provider = .openrouter ∧ s.openai_api_key ≠ ""
  · cases hlr : lastResort (env ⟨Provider.openai, s.openai_model⟩) with
    | some content =>
      simp [hor, hlr, attempted, List.map_append]
    | none =>
      simp [hor, hlr, attempted, List.map_append]
  · simp [hor, attempted, List.map_append]

/-- C3 witness: chain `[m1]` answered 401 with an OpenAI key configured:
the attempts are exactly `m1` on openrouter then the OpenAI primary model. -/
theorem fatal_401_witness :
    attempted (generate_response sWithOpenAI env401 (Except.error "x") "Hi" [] [] none).1
      = [⟨Provider.openrouter, "m1"⟩, ⟨Provider.openai, "gpt-3.5-turbo"⟩] := by
  have h := fatal_401_short_circuits_chain sWithOpenAI env401 (Except.error "x") "Hi" [] [] none
    [] "m1" [] ⟨401, .invalidJson, "unauthorized"⟩
    (by decide) (by decide) rfl (by simp) rfl rfl
  simpa using h

/-- C4: when every candidate of the chain fails with a loop-continuing
failure and the last-resort OpenAI attempt (if reachable) also fails —
respectively, when the gemini call fails — `generate_response` returns the
single fixed apology string with the last recorded failure description
embedded; the embedding is a total function into strings, mirroring that
the Python call never raises. -/
theorem exhaustion_returns_apology_with_last_error
    (s : LLMSettings) (env : Candidate → AttemptOutcome) (genv : Except String String)
    (u : String) (ctx : List String) (hist : List ChatMsg) (sp : Option String)
    (hkey : s.api_key ≠ "")
    (hloop : ∀ m ∈ modelsToTry s, ∃ e, loopBody (env ⟨s.provider, m⟩) = .tryNext e)
    (hlast : lastResort (env ⟨Provider.openai, s.openai_model⟩) = none)
    (hgem : s.provider = .gemini → ∃ e, genv = .error e) :
    ∃ e, (s.provider ≠ .gemini → chainErr env s.provider none (modelsToTry s) = some e)
      ∧ (s.provider = .gemini → genv = .error e)
      ∧ (generate_response s env genv u ctx hist sp).2 = exhaustMsg (some e) := by
  by_cases hg : s.provider = .gemini
  · obtain ⟨e, he⟩ := hgem hg
    refine ⟨e, fun hc => absurd hg hc, fun _ => he, ?_⟩
    simp [generate_response, if_neg hkey, hg, he]
  · have hne : modelsToTry s ≠ [] := by
      unfold modelsToTry
      split_ifs <;> simp
    obtain ⟨e, he⟩ := chainErr_isSome env s.provider (modelsToTry s) none hloop hne
    refine ⟨e, fun _ => he, fun hc => absurd hc hg, ?_⟩
    set msgs := buildMessages (sp.getD (build_system_prompt ctx)) hist u with hmsgs
    have hout := tryModels_exhaust env s.provider msgs (modelsToTry s) none hloop
    simp only [generate_response, if_neg hkey, if_neg hg]
    rw [← hmsgs, hout]
    by_cases hor : s.provider = .openrouter ∧ s.openai_api_key ≠ ""
    · rw [hor.1] at he
      simp [hor, hlast, he]
    · simp [hor, he]

/-- C4 witness: chain `[m1]` rate-limited with no OpenAI key: the call
returns the apology string embedding the recorded `HTTP 429` failure. -/
theorem exhaustion_witness :
    (generate_response sBare env429 (Except.error "boom") "Hi" [] [] none).2
      = exhaustMsg (some "HTTP 429: rate limited") := by
  obtain ⟨e, h1, _, h2⟩ :=
    exhaustion_returns_apology_with_last_error sBare env429 (Except.error "boom") "Hi" [] [] none
      (by decide)
      (fun m hm => by
        simp only [modelsToTry, sBare] at hm
        simp at hm
        subst hm
        exact ⟨"HTTP 429: rate limited", rfl⟩)
      rfl
      (fun h => absurd h (by decide))
  have h3 := h1 (by decide)
  have h4 : chainErr env429 sBare.provider none (modelsToTry sBare)
      = some "HTTP 429: rate limited" := rfl
  rw [h3] at h4
  injection h4 with h5
  rw [← h5]
  exact h2

/-- C2 counterexample: with the repository's default configuration (primary
model `google/gemini-2.0-flash-exp:free`, which is also the first entry of
the shipped fallback list) and every request rate-limited, one call issues
two requests for the same (openrouter, google/gemini-2.0-flash-exp:free)
candidate — the claim that no candidate is attempted more than once fails. -/
theorem default_chain_repeats_primary_candidate :
    2 ≤ (attempted (generate_response defaultSettings env429 (Except.error "unused")
            "Hi" [] [] none).1).count
          ⟨Provider.openrouter, "google/gemini-2.0-flash-exp:free"⟩ := by
  decide

/-- C2 amended: each chain position is issued at most one request, so when
the configured chain (primary model followed by the fallback list) contains
no duplicate model id, no (provider, model) candidate is attempted more than
once — the last-resort OpenAI attempt is a distinct candidate because its
provider differs.  (The shipped default configuration violates the nodup
hypothesis by repeating the primary model as the first fallback.) -/
theorem candidates_attempted_at_most_once_of_nodup_chain
    (s : LLMSettings) (env : Candidate → AttemptOutcome) (genv : Except String String)
    (u : String) (ctx : List String) (hist : List ChatMsg) (sp : Option String)
    (hnodup : (modelsToTry s).Nodup) :
    (attempted (generate_response s env genv u ctx hist sp).1).Nodup := by
  by_cases hkey : s.api_key = ""
  · simp [generate_response, hkey, attempted]
  · by_cases hg : s.provider = .gemini
    · cases genv <;> simp [generate_response, if_neg hkey, hg, attempted]
    · set msgs := buildMessages (sp.getD (build_system_prompt ctx)) hist u with hmsgs
      obtain ⟨n, hn⟩ := tryModels_trace_shape env s.provider msgs (modelsToTry s) none
      have htake : ((modelsToTry s).take n).Nodup :=
        (List.take_sublist n _).nodup hnodup
      have hinj : Function.Injective fun m => (⟨s.provider, m⟩ : Candidate) := by
        intro a b hab
        simpa using hab
      have hA : (attempted (tryModels env s.provider msgs (modelsToTry s) none).1).Nodup := by
        rw [hn, attempted_map_http]
        exact List.Nodup.map hinj htake
      have htail : ∀ t : List Request,
          t = (tryModels env s.provider msgs (modelsToTry s) none).1
                ++ [Request.http ⟨Provider.openai, s.openai_model⟩ msgs] →
          s.provider = .openrouter → (attempted t).Nodup := by
        intro t ht hpr
        subst ht
        rw [attempted_append, hn, attempted_map_http]
        have h2 : attempted [Request.http ⟨Provider.openai, s.openai_model⟩ msgs]
            = [⟨Provider.openai, s.openai_model⟩] := rfl
        rw [h2]
        refine http_map_nodup_tail s.provider _ _ htake ?_
        rw [hpr]
        simp
      simp only [generate_response, if_neg hkey, if_neg hg]
      rw [← hmsgs]
      cases hsc : (tryModels env s.provider msgs (modelsToTry s) none).2.1 with
      | some t =>
        simp only [hsc]
        exact hA
      | none =>
        simp only [hsc]
        by_cases hor : s.provider = .openrouter ∧ s.openai_api_key ≠ ""
        · rw [if_pos hor]
          cases hlr : lastResort (env ⟨Provider.openai, s.openai_model⟩) with
          | some content =>
            simp only [hlr]
            exact htail _ rfl hor.1
          | none =>
            simp only [hlr]
            exact htail _ rfl hor.1
        · rw [if_neg hor]
          exact hA

/-- C2 amended witness: a duplicate-free chain `[m1, m2, m3]` under an
all-rate-limited transport yields a duplicate-free list of attempted
candidates. -/
theorem candidates_attempted_at_most_once_witness :
    (attempted (generate_response sChain3 env429 (Except.error "x") "Hi" [] [] none).1).Nodup :=
  candidates_attempted_at_most_once_of_nodup_chain sChain3 env429 (Except.error "x")
    "Hi" [] [] none (by decide)

end LegalLink
